import Mathlib

/-!
Verification development for the devsync repository.

The definitions below are a shallow embedding of the Python source:
  * `applyDiffToContent` embeds `GitHubTool._apply_diff_to_content`
    (src/tools/github_tool.py, lines 121-200), together with its hunk
    parser and hunk applicator;
  * `create_fix_branch` embeds `GitHubTool.create_fix_branch` (lines 19-57);
  * `extractKeywords` embeds `MCPServer._extract_keywords`
    (src/mcp_server.py, lines 211-235);
  * `parse_bug_report` embeds `AnthropicService.parse_bug_report`
    (src/services/anthropic_service.py, lines 46-115), with the external
    JSON decoder passed in as an oracle function;
  * `processSlackConversation` embeds `MCPServer.process_slack_conversation`
    (src/mcp_server.py, lines 25-208), with each external collaborator call
    (language model, issue tracker, source host) passed in as an oracle
    whose outcome is either a value or a raised exception's text.

Python-level string and list operations that the source relies on are
embedded first as structurally recursive functions over character lists,
so that every definition evaluates inside the kernel.  Strings are
treated as sequences of characters; `str.splitlines` is modelled for
inputs whose line separator is `'\n'` (the only separator occurring in
the repository's data), and `int(...)` is modelled for sign-prefixed
digit strings (the tokens reaching it here are whitespace-free).
-/

deriving instance DecidableEq for Except

/-- Split a character list at every character satisfying `p`, keeping
empty pieces (the separators are dropped). -/
def splitOnPred (p : Char → Bool) : List Char → List (List Char)
  | [] => [[]]
  | x :: xs =>
      let r := splitOnPred p xs
      if p x then [] :: r
      else
        match r with
        | h :: t => (x :: h) :: t
        | [] => [[x]]

/-- Split at every occurrence of the character `c`, keeping empty
pieces (Python `s.split(c)` for a one-character separator). -/
def splitOnChar (c : Char) (cs : List Char) : List (List Char) :=
  splitOnPred (fun x => x = c) cs

/-- Model of Python `str.splitlines()` for `'\n'`-separated text:
`""` gives `[]`, and a trailing newline does not produce a final empty
line. -/
def pySplitlines (s : String) : List String :=
  if s = "" then []
  else
    let ps := (splitOnChar '\n' s.data).map String.mk
    if s.data.getLast? = some '\n' then ps.dropLast else ps

/-- Model of Python `str.split()` (no separator): split on whitespace
runs, discarding empty pieces. -/
def pySplitWs (s : String) : List String :=
  ((splitOnPred Char.isWhitespace s.data).map String.mk).filter (fun p => p ≠ "")

/-- Whether the second list is an initial segment of the first. -/
def charsBeginWith : List Char → List Char → Bool
  | _, [] => true
  | [], _ :: _ => false
  | a :: as, b :: bs => a = b && charsBeginWith as bs

/-- Model of Python `s.startswith(p)`. -/
def pyStartsWith (s p : String) : Bool := charsBeginWith s.data p.data

/-- Model of Python `s.lower()` (the strings lowered in the source are
ASCII). -/
def pyLower (s : String) : String := String.mk (s.data.map Char.toLower)

/-- Model of Python `s[:n]` (character-based slicing). -/
def pyTake (s : String) (n : Nat) : String := String.mk (s.data.take n)

/-- Model of Python `s[1:]`. -/
def pyDropOne (s : String) : String := String.mk (s.data.drop 1)

/-- Model of Python `'\n'.join(lines)`. -/
def pyJoinNl : List String → String
  | [] => ""
  | [x] => x
  | x :: y :: xs => x ++ "\n" ++ pyJoinNl (y :: xs)

/-- Digit-string value accumulation; `none` when a non-digit occurs. -/
def digitsValGo : List Char → Nat → Option Nat
  | [], acc => some acc
  | c :: rest, acc =>
      if c.isDigit then digitsValGo rest (acc * 10 + (c.toNat - 48)) else none

/-- Digit-string value of a non-empty all-digit character list. -/
def digitsVal (cs : List Char) : Option Nat :=
  match cs with
  | [] => none
  | _ => digitsValGo cs 0

/-- Model of Python `int(s)` on sign-prefixed digit strings: `none` models
a raised `ValueError`. -/
def pyInt (s : String) : Option Int :=
  match s.data with
  | [] => none
  | c :: rest =>
      if c = '-' then (digitsVal rest).map (fun n => -(n : Int))
      else if c = '+' then (digitsVal rest).map (fun n => (n : Int))
      else (digitsVal (c :: rest)).map (fun n => (n : Int))

/-- Python slice-index normalization for a list of length `n`: negative
indices count from the end, and everything is clamped into `[0, n]`. -/
def pySliceIdx (n : Nat) (i : Int) : Nat :=
  if i < 0 then n - min n (-i).toNat else min i.toNat n

/-- Model of Python `del l[a:b]`. -/
def pyDelSlice (l : List α) (a b : Int) : List α :=
  let a2 := pySliceIdx l.length a
  let b2 := pySliceIdx l.length b
  l.take a2 ++ l.drop (max a2 b2)

/-- Model of Python `l.insert(i, x)`. -/
def pyInsert (l : List α) (i : Int) (x : α) : List α :=
  let k := pySliceIdx l.length i
  l.take k ++ x :: l.drop k

/-- Successive `l.insert(start + i, x_i)` calls, as in the hunk
application loop of `_apply_diff_to_content`. -/
def insertAll (l : List String) (start : Int) : List String → List String
  | [] => l
  | x :: xs => insertAll (pyInsert l start x) (start + 1) xs

/-- A parsed hunk of `_apply_diff_to_content`: the dict
`{'old_start': …, 'new_start': …, 'changes': […]}` built at lines
150-154 of src/tools/github_tool.py (starts already converted to
0-based). -/
structure PHunk where
  old_start : Int
  new_start : Int
  changes : List String
deriving DecidableEq, Repr

/-- First comma-separated field of a range token
(Python `range.split(',')[0]`). -/
def commaHead (s : String) : String :=
  String.mk ((splitOnChar ',' s.data).headD [])

/-- Start coordinate of a `-start,count` / `+start,count` range token:
Python `int(range.split(',')[0][1:])`; `none` models the `ValueError`. -/
def parseStart (range : String) : Option Int := pyInt (pyDropOne (commaHead range))

/-- The hunk-discovery loop of `_apply_diff_to_content` (lines 139-157):
walks the diff lines, opens a hunk at each parsable `@@` header, and
appends `+`/`-`/space lines to the most recently opened hunk.  The
accumulator keeps hunks most-recent-first; `Except.error ()` models the
`ValueError` raised by `int(...)` on a header whose start field is not
numeric. -/
def parseHunksGo : List String → List PHunk → Except Unit (List PHunk)
  | [], acc => .ok acc.reverse
  | line :: rest, acc =>
      if pyStartsWith line "@@" then
        let parts := pySplitWs line
        if parts.length ≥ 2 then
          let old_range := parts.getD 1 ""
          let new_range := if parts.length > 2 then parts.getD 2 "" else old_range
          match parseStart old_range, parseStart new_range with
          | some os, some ns =>
              parseHunksGo rest
                ({ old_start := os - 1, new_start := ns - 1, changes := [] } :: acc)
          | _, _ => .error ()
        else parseHunksGo rest acc
      else
        match acc with
        | [] => parseHunksGo rest acc
        | cur :: tail =>
            if pyStartsWith line "+" || pyStartsWith line "-" || pyStartsWith line " " then
              parseHunksGo rest ({ cur with changes := cur.changes ++ [line] } :: tail)
            else parseHunksGo rest acc

/-- Number of `-`-tagged lines of a hunk (`lines_to_remove`, line 172). -/
def hunkRemovals (h : PHunk) : Nat :=
  (h.changes.filter (fun l => pyStartsWith l "-")).length

/-- Replacement block of a hunk: `+`- and space-tagged lines with the tag
stripped (`new_lines`, lines 181-186). -/
def hunkInsertions (h : PHunk) : List String :=
  (h.changes.filter (fun l => pyStartsWith l "+" || pyStartsWith l " ")).map pyDropOne

/-- One iteration of the hunk application loop (lines 167-190): delete
`lines_to_remove` lines at `old_start` (end index clamped to the document
length), then insert the replacement block at `old_start`. -/
def applyHunk (result_lines : List String) (hunk : PHunk) : List String :=
  let r1 :=
    if hunkRemovals hunk > 0 then
      pyDelSlice result_lines hunk.old_start
        (min (hunk.old_start + (hunkRemovals hunk : Int)) (result_lines.length : Int))
    else result_lines
  insertAll r1 hunk.old_start (hunkInsertions hunk)

/-- The loop `for hunk in reversed(hunks)` (line 167): hunks are applied in
reverse discovery order. -/
def applyHunks (hunks : List PHunk) (lines : List String) : List String :=
  hunks.reverse.foldl applyHunk lines

/-- Embedding of `GitHubTool._apply_diff_to_content(original, diff)`
(src/tools/github_tool.py, lines 121-200).  `Except.error ()` models an
exception escaping the function. -/
def applyDiffToContent (original diff : String) : Except Unit String :=
  if diff = "" ∨ original = "" then .ok original
  else
    let diff_lines := pySplitlines diff
    let original_lines := pySplitlines original
    match parseHunksGo diff_lines [] with
    | .error _ => .error ()
    | .ok hunks =>
        if hunks = [] then .ok original
        else
          let result := pyJoinNl (applyHunks hunks original_lines)
          if result ≠ original then .ok result else .ok original

/-- The shape of the `affected_components` value of a bug-report dict:
Python `None` (or an absent key where the code uses `.get` without a
default), a single string, or a list of strings. -/
inductive Components where
  | null : Components
  | str : String → Components
  | list : List String → Components
deriving DecidableEq, Repr

/-- The slice of a bug-report dict read by `_extract_keywords`
(src/mcp_server.py, lines 211-235): the `title` value (`none` models an
absent key or `None`) and the `affected_components` value. -/
structure KWReport where
  title : Option String
  affected_components : Components
deriving DecidableEq, Repr

/-- The stop-word set of `_extract_keywords` (line 233). -/
def stopwords : List String :=
  ["the", "and", "for", "with", "from", "into", "when", "where", "this", "that"]

/-- Title-derived keywords (lines 223-225): words of the title longer
than 3 characters, in order; nothing when the title is falsy. -/
def titleKeywords (r : KWReport) : List String :=
  match r.title with
  | some t => if t ≠ "" then (pySplitWs t).filter (fun w => w.length > 3) else []
  | none => []

/-- The entries `keywords.extend(affected_components)` appends
(lines 228-230): the elements of a list, or — because Python `extend`
iterates a string — the individual characters of a string. -/
def componentEntries : Components → List String
  | .null => []
  | .str s => s.data.map (fun c => String.mk [c])
  | .list l => l

/-- Embedding of `MCPServer._extract_keywords` (src/mcp_server.py,
lines 211-235): title words and component entries, stop-words removed
case-insensitively, truncated to 5. -/
def extractKeywords (r : KWReport) : List String :=
  ((titleKeywords r ++ componentEntries r.affected_components).filter
    (fun k => !(stopwords.contains (pyLower k)))).take 5

/-- The keyword assembly of `process_slack_conversation`
(src/mcp_server.py, lines 86-92): `_extract_keywords` followed by the
shape-dispatching append of `affected_components` at the call site
(`append` for a string, `extend` for a list, nothing for `None`). -/
def orchestratorKeywords (r : KWReport) : List String :=
  let keywords := extractKeywords r
  match r.affected_components with
  | .str s => keywords ++ [s]
  | .list l => keywords ++ l
  | .null => keywords

/-- A Slack conversation message, per the data model: both keys present
(`msg['user']`, `msg['text']`). -/
structure Msg where
  user : String
  text : String
deriving DecidableEq, Repr

/-- The bug-report dict as far as the repository reads it; `none` models
an absent key (the code only ever reads these keys with `.get` or after
establishing presence). -/
structure RawReport where
  title : Option String := none
  description : Option String := none
  steps_to_reproduce : Option String := none
  expected_behavior : Option String := none
  actual_behavior : Option String := none
  severity : Option String := none
  affected_components : Components := Components.null
  additional_context : Option String := none
deriving DecidableEq, Repr

/-- Truthiness of `bug_report.get('title')` as tested at
src/mcp_server.py line 68. -/
def titleTruthy (r : RawReport) : Bool :=
  match r.title with
  | some t => t ≠ ""
  | none => false

/-- The `"\n".join(f"{msg['user']}: {msg['text']}" …)` transcript of
`parse_bug_report` (src/services/anthropic_service.py, lines 58-61). -/
def formatConv (conv : List Msg) : String :=
  pyJoinNl (conv.map (fun m => m.user ++ ": " ++ m.text))

/-- The deterministic fallback report of `parse_bug_report`
(lines 104-114). -/
def fallbackReport (conv : List Msg) : RawReport :=
  let fc := formatConv conv
  { title := some "Bug Report from Slack"
    description := some (pyTake fc 500)
    steps_to_reproduce := some "See conversation"
    expected_behavior := some "System should work as intended"
    actual_behavior := some "Issue reported in conversation"
    severity := some "Medium"
    affected_components := Components.list []
    additional_context := some fc }

/-- The opening-brace character, written without a brace literal. -/
def lbrace : Char := Char.ofNat 123

/-- The closing-brace character. -/
def rbrace : Char := Char.ofNat 125

/-- The substring `text[text.index(lbrace) : text.rindex(rbrace) + 1]`
cut out at line 96 of src/services/anthropic_service.py (only evaluated
when both braces occur in `text`). -/
def braceSub (t : String) : String :=
  let cs := t.data
  let i := cs.indexOf lbrace
  let j := cs.length - 1 - cs.reverse.indexOf rbrace
  String.mk ((cs.drop i).take (j + 1 - i))

/-- Embedding of `AnthropicService.parse_bug_report`
(src/services/anthropic_service.py, lines 46-115).  The language-model
call is the oracle `llm` (`none` models a raised exception, `some t` the
stripped response text), and the external `json.loads` decoder is the
oracle `loads` (`none` models a decode exception).  When the decode
succeeds, its dict is returned as-is; every failure path falls back to
`fallbackReport`. -/
def parse_bug_report (conv : List Msg) (llm : Option String)
    (loads : String → Option RawReport) : RawReport :=
  match llm with
  | none => fallbackReport conv
  | some text =>
      if text.data.contains lbrace && text.data.contains rbrace then
        match loads (braceSub text) with
        | some r => r
        | none => fallbackReport conv
      else fallbackReport conv

/-- The ways the structured extraction can fail: a raised call, a
response without a JSON object, or a decode error. -/
def extractionFailed (llm : Option String) (loads : String → Option RawReport) : Prop :=
  match llm with
  | none => True
  | some t =>
      (t.data.contains lbrace && t.data.contains rbrace) = false ∨
      loads (braceSub t) = none

/-- A `json.loads` oracle that decodes the two-character text consisting
of an opening and a closing brace to the empty dict and rejects
everything else — the behavior of Python's decoder on that input. -/
def loadsEmptyObj : String → Option RawReport :=
  fun s => if s = "\x7b\x7d" then some {} else none

/-- A file change of a fix proposal (`{'file': …, 'changes': …}`). -/
structure CodeChange where
  file : String
  changes : String
deriving DecidableEq, Repr

/-- The fix-proposal dict as far as `process_slack_conversation` reads
it; an absent `code_changes` key and an empty list are both modelled by
`[]` (the code only tests the value's truthiness and iterates it). -/
structure FixProposal where
  root_cause : Option String := none
  fix_description : Option String := none
  code_changes : List CodeChange := []
  testing_notes : Option String := none
deriving DecidableEq, Repr

/-- The manual-fix fallback proposal substituted at
src/mcp_server.py lines 138-144. -/
def fallbackFix : FixProposal :=
  { root_cause := some "Manual analysis required"
    fix_description := some "This issue requires manual investigation"
    code_changes := []
    testing_notes := some "Manual testing required" }

/-- Outcomes of the external collaborator calls reached by one run of
`process_slack_conversation`.  `Except.error e` models a call raising an
exception whose `str(…)` is `e`; calls whose Python implementation
swallows every exception (`find_similar_issues`, `get_relevant_files`,
`analyze_codebase_context`, `add_comment`, `apply_code_changes`) are
modelled by their plain return value. -/
structure Env where
  parseReport : Except String RawReport
  similar : List String
  fixResult : Except String FixProposal
  createTicket : Except String String
  createBranch : Except String String
  applyChanges : Bool
  createPR : Except String String
deriving Repr

/-- The fix proposal the workflow continues with (lines 131-144): the
fallback when the generation call raised, otherwise the generated
proposal.  (A falsy generated dict is also replaced by the fallback in
the source; both have an empty `code_changes` list, so the two are
indistinguishable in this embedding.) -/
def effectiveFix (env : Env) : FixProposal :=
  match env.fixResult with
  | .error _ => fallbackFix
  | .ok f => f

/-- The value of `Config.JIRA_BASE_URL`, treated as an abstract
configuration constant. -/
def JIRA_BASE_URL : String := "example.atlassian.net"

/-- The advisory comment posted when no code changes were generated
(src/mcp_server.py, lines 178-179). -/
def manualComment : String := "No automated fix generated. Manual investigation required."

/-- The prefix of the failure result's `message` field (line 207). -/
def failMsgHead : String := "Failed to process bug report: "

/-- The result dict of `process_slack_conversation`: `none` fields model
keys absent from the returned dict (the success and failure dicts carry
different keys). -/
structure WFRes where
  success : Bool
  workflow_id : String
  issue_key : Option String := none
  issue_url : Option String := none
  pr_url : Option String := none
  bug_title : Option String := none
  severity : Option String := none
  similar_issues : Option (List String) := none
  error : Option String := none
  message : String
deriving DecidableEq, Repr

/-- One run's observable trace: the returned result, the step statuses
appended to the workflow record by `_update_workflow`, and the comments
posted through `jira.add_comment` as `(issue key, text)` pairs. -/
structure WFTrace where
  res : WFRes
  steps : List String
  comments : List (String × String)
deriving DecidableEq, Repr

/-- The failure boundary (src/mcp_server.py, lines 199-208): record the
`failed` transition and return the failure dict. -/
def failTrace (wid : String) (steps : List String) (comments : List (String × String))
    (e : String) : WFTrace :=
  { res := { success := false, workflow_id := wid, error := some e,
             message := failMsgHead ++ e }
    steps := steps ++ ["failed"]
    comments := comments }

/-- The success result (lines 182-197). -/
def okTrace (wid issue_key : String) (pr_url : Option String) (r : RawReport)
    (similar : List String) (steps : List String) (comments : List (String × String)) :
    WFTrace :=
  { res := { success := true, workflow_id := wid, issue_key := some issue_key,
             issue_url := some ("https://" ++ JIRA_BASE_URL ++ "/browse/" ++ issue_key),
             pr_url := pr_url,
             bug_title := r.title,
             severity := some ((r.severity).getD "Medium"),
             similar_issues := some similar,
             error := none,
             message := "Successfully created Jira ticket " ++ issue_key ++
               (match pr_url with
                | some u => if u ≠ "" then " and PR " ++ u else " (manual fix required)"
                | none => " (manual fix required)") }
    steps := steps ++ ["completed"]
    comments := comments }

/-- Embedding of `MCPServer.process_slack_conversation`
(src/mcp_server.py, lines 25-208).  The keyword extraction and
code-context assembly between the `analyzing_codebase` and
`generating_fix` transitions are pure or internally exception-guarded
and contribute nothing observable to the result, so they leave no trace
here beyond their step statuses. -/
def processSlackConversation (env : Env) (channel_id thread_ts : String) : WFTrace :=
  let wid := channel_id ++ "_" ++ thread_ts
  let s1 : List String := ["parsing_bug_report"]
  match env.parseReport with
  | .error e => failTrace wid s1 [] e
  | .ok bug_report =>
      if !titleTruthy bug_report then
        failTrace wid s1 [] "Failed to parse bug report from conversation"
      else
        let similar := env.similar
        let s4 := s1 ++ ["bug_report_parsed", "analyzing_codebase", "generating_fix"]
        let fix := effectiveFix env
        let s6 := s4 ++ ["fix_generated", "creating_jira_ticket"]
        match env.createTicket with
        | .error e => failTrace wid s6 [] e
        | .ok issue_key =>
            let s7 := s6 ++ ["jira_ticket_created"]
            if fix.code_changes ≠ [] then
              let s8 := s7 ++ ["creating_pr"]
              match env.createBranch with
              | .error e => failTrace wid s8 [] e
              | .ok _branch =>
                  if env.applyChanges then
                    match env.createPR with
                    | .error e => failTrace wid s8 [] e
                    | .ok pr =>
                        if pr ≠ "" then
                          okTrace wid issue_key (some pr) bug_report similar
                            (s8 ++ ["pr_created"])
                            [(issue_key, "Pull Request created: " ++ pr)]
                        else
                          okTrace wid issue_key (some pr) bug_report similar s8 []
                  else okTrace wid issue_key none bug_report similar s8 []
            else
              okTrace wid issue_key none bug_report similar s7
                [(issue_key, manualComment)]

/-- An exception raised by a collaborator of `GitHubTool`: a
`GithubException` carrying an HTTP status, or any other exception. -/
inductive PyErr where
  | gh (status : Int) (msg : String)
  | other (msg : String)
deriving DecidableEq, Repr

/-- The collaborator calls of `create_fix_branch`: the base branch's
commit sha (or a raised exception) and the outcome of
`create_git_ref` for a given branch name. -/
structure GHEnv where
  getBranchSha : Except PyErr String
  createRef : String → Except PyErr Unit
  now : Int

/-- The branch-name sanitizer of `create_fix_branch` (lines 30-31):
lower-case, replace every character outside `[a-zA-Z0-9-]` by `-`,
collapse `-` runs, truncate to 30 characters. -/
def cleanTitle (bug_title : String) : String :=
  let s1 := (pyLower bug_title).data.map
    (fun c => if c.isAlphanum || c = '-' then c else '-')
  let rec collapse : List Char → List Char
    | [] => []
    | [c] => [c]
    | c :: d :: rest =>
        if c = '-' && d = '-' then collapse (d :: rest) else c :: collapse (d :: rest)
  String.mk ((collapse s1).take 30)

/-- The branch name derived at line 33:
`fix/<issue key lowered>-<sanitized title>`. -/
def branchName (issue_key bug_title : String) : String :=
  "fix/" ++ pyLower issue_key ++ "-" ++ cleanTitle bug_title

/-- Embedding of `GitHubTool.create_fix_branch` (src/tools/github_tool.py,
lines 19-57).  A 422 `GithubException` from `create_git_ref` is retried
exactly once under a `-<int(time.time())>` suffix; any other exception,
and any failure of the single retry, propagates.  (A 422 raised by
`get_branch` itself would make the Python handler read the unbound local
`base_branch` and raise a `NameError`, which is what the `.other`
branch models there.) -/
def create_fix_branch (env : GHEnv) (issue_key bug_title : String) : Except PyErr String :=
  let branch_name := branchName issue_key bug_title
  match env.getBranchSha with
  | .error (.gh status m) =>
      if status = 422 then
        .error (.other "cannot access local variable base_branch")
      else .error (.gh status m)
  | .error (.other m) => .error (.other m)
  | .ok _sha =>
      match env.createRef branch_name with
      | .ok _ => .ok branch_name
      | .error (.gh status m) =>
          if status = 422 then
            let branch_name2 := branch_name ++ "-" ++ toString env.now
            match env.createRef branch_name2 with
            | .ok _ => .ok branch_name2
            | .error e2 => .error e2
          else .error (.gh status m)
      | .error (.other m) => .error (.other m)

/-! ## C1: exception behavior of `_apply_diff_to_content` -/

/-- C1 counterexample: `_apply_diff_to_content` is claimed never to
throw, but on the original `"a"` and the patch `"@@ -x,1 +1,1 @@"` —
a hunk header whose start field is not numeric — `int(...)` raises a
`ValueError` that escapes the function. -/
theorem applyDiff_malformed_header_raises :
    applyDiffToContent "a" "@@ -x,1 +1,1 @@" = Except.error () := by decide

/-- C1 (amended): `_apply_diff_to_content` never throws provided every
hunk-header line parses (the hunk-discovery pass returns normally), and
it returns the original unchanged whenever that pass finds zero hunks —
in particular whenever the patch contains no `@@` header at all. -/
theorem applyDiff_total_of_parse_ok (original patch : String) (hs : List PHunk)
    (h : parseHunksGo (pySplitlines patch) [] = Except.ok hs) :
    (∃ s, applyDiffToContent original patch = Except.ok s) ∧
    (hs = [] → applyDiffToContent original patch = Except.ok original) := by
  by_cases hde : patch = "" ∨ original = ""
  · simp [applyDiffToContent, hde]
  · simp only [applyDiffToContent, if_neg hde, h]
    by_cases hh : hs = []
    · simp [hh]
    · simp only [if_neg hh]
      refine ⟨?_, fun hc => absurd hc hh⟩
      split
      · exact ⟨_, rfl⟩
      · exact ⟨_, rfl⟩

/-- C1 witness: a patch with no `@@` header parses to zero hunks and is
a no-op. -/
theorem applyDiff_total_of_parse_ok_witness :
    (∃ s, applyDiffToContent "a\nb" "not a diff" = Except.ok s) ∧
    (([] : List PHunk) = [] → applyDiffToContent "a\nb" "not a diff" = Except.ok "a\nb") :=
  applyDiff_total_of_parse_ok "a\nb" "not a diff" [] (by decide)

/-! ## C4: the single-hunk example patch -/

/-- C4: applying the one-hunk patch `@@ -2,1 +2,1 @@` / `-old` / `+new`
to the original with lines `["a", "old", "b"]` yields the lines
`["a", "new", "b"]`. -/
theorem applyDiff_single_hunk_example :
    applyDiffToContent "a\nold\nb" "@@ -2,1 +2,1 @@\n-old\n+new" =
      Except.ok "a\nnew\nb" := by decide

/-! ## C10: empty original (and empty patch) short-circuit -/

/-- C10: for every patch, applying it to the empty original returns the
empty string unchanged (the engine short-circuits before parsing any
hunk), and likewise an empty patch leaves any original unchanged. -/
theorem applyDiff_empty_original_noop (patch original : String) :
    applyDiffToContent "" patch = Except.ok "" ∧
    applyDiffToContent original "" = Except.ok original := by
  constructor <;> simp [applyDiffToContent]

/-! ## C7: bounds, stop-words and order of `_extract_keywords` -/

/-- C7: `_extract_keywords` returns at most 5 entries, none of which is
a stop-word after lower-casing, and the result is a subsequence of the
title-derived words (only words longer than 3 characters) followed by
the component entries — so discovery order is preserved and title words
come first. -/
theorem extractKeywords_spec (r : KWReport) :
    (extractKeywords r).length ≤ 5 ∧
    (∀ k ∈ extractKeywords r, stopwords.contains (pyLower k) = false) ∧
    List.Sublist (extractKeywords r)
      (titleKeywords r ++ componentEntries r.affected_components) := by
  refine ⟨?_, ?_, ?_⟩
  · exact List.length_take_le 5 _
  · intro k hk
    have hm := List.mem_of_mem_take hk
    have := (List.mem_filter.mp hm).2
    simpa using this
  · exact (List.take_sublist 5 _).trans (List.filter_sublist _)

/-- C7 witness at a concrete report and member. -/
theorem extractKeywords_spec_witness :
    stopwords.contains (pyLower "Login") = false :=
  (extractKeywords_spec ⟨some "Login broken badly", Components.list ["auth"]⟩).2.1
    "Login" (by decide)

/-! ## C8: the string shape of `affected_components` -/

/-- C8 counterexample: with no title keywords and the single string
`"database"` as `affected_components`, `_extract_keywords` extends the
list with the string's characters (Python `list.extend` iterates a
string), so the result is five one-character entries and does not
contain `"database"`. -/
theorem extractKeywords_string_shape_chars :
    extractKeywords ⟨none, Components.str "database"⟩ = ["d", "a", "t", "a", "b"] ∧
    "database" ∉ extractKeywords ⟨none, Components.str "database"⟩ := by decide

/-- C8 (amended): the string shape is accepted whole only at the
orchestrator call site, which appends the full string after
`_extract_keywords` returns; the assembled keyword list then contains
`"database"` as one entry, after the five character entries contributed
by `_extract_keywords`. -/
theorem orchestratorKeywords_string_shape :
    orchestratorKeywords ⟨none, Components.str "database"⟩ =
      ["d", "a", "t", "a", "b", "database"] ∧
    "database" ∈ orchestratorKeywords ⟨none, Components.str "database"⟩ := by decide

/-! ## C2: fallback behavior of report normalization -/

/-- C2 counterexample: when the language model returns the two-character
JSON text of an empty object, `parse_bug_report` decodes it and returns
the title-less dict as-is instead of falling back, and the orchestrator
then aborts the step with a `ValueError` (surfacing `success = false`) —
refuting that an output missing the `title` key triggers the
deterministic fallback and that the workflow never aborts here. -/
theorem parse_missing_title_aborts :
    (parse_bug_report [⟨"alice", "login broken"⟩] (some "\x7b\x7d") loadsEmptyObj).title
      = none ∧
    (processSlackConversation
      { parseReport := .ok
          (parse_bug_report [⟨"alice", "login broken"⟩] (some "\x7b\x7d") loadsEmptyObj),
        similar := [], fixResult := .error "llm error", createTicket := .ok "CCS-1",
        createBranch := .ok "b", applyChanges := true, createPR := .ok "u" }
      "C1" "T1").res.success = false := by decide

/-- C2 (amended): on a call error, a response without a JSON object, or
a JSON decode error, `parse_bug_report` falls back to the deterministic
report — fixed-literal title, description the first 500 characters of
the transcript, severity Medium — whose title is non-empty, so the
orchestrator does not abort; but a response that decodes as JSON missing
the `title` key is returned as-is and makes the orchestrator abort the
step. -/
theorem parse_fallback_on_extraction_failure (conv : List Msg) (llm : Option String)
    (loads : String → Option RawReport) (h : extractionFailed llm loads) :
    parse_bug_report conv llm loads = fallbackReport conv ∧
    (parse_bug_report conv llm loads).title = some "Bug Report from Slack" ∧
    (parse_bug_report conv llm loads).description = some (pyTake (formatConv conv) 500) ∧
    (parse_bug_report conv llm loads).severity = some "Medium" ∧
    titleTruthy (parse_bug_report conv llm loads) = true := by
  have hmain : parse_bug_report conv llm loads = fallbackReport conv := by
    cases llm with
    | none => rfl
    | some t =>
        simp only [extractionFailed] at h
        simp only [parse_bug_report]
        rcases h with h | h
        · have hf : ¬((t.data.contains lbrace && t.data.contains rbrace) = true) := by
            rw [h]; simp
          rw [if_neg hf]
        · by_cases hb : (t.data.contains lbrace && t.data.contains rbrace) = true
          · rw [if_pos hb, h]
          · rw [if_neg hb]
  refine ⟨hmain, ?_, ?_, ?_, ?_⟩ <;> rw [hmain] <;>
    simp [fallbackReport, titleTruthy]

/-- C2 witness: a raised language-model call at a concrete conversation
falls back. -/
theorem parse_fallback_on_extraction_failure_witness :
    parse_bug_report [⟨"alice", "hi"⟩] none loadsEmptyObj =
      fallbackReport [⟨"alice", "hi"⟩] ∧
    (parse_bug_report [⟨"alice", "hi"⟩] none loadsEmptyObj).title =
      some "Bug Report from Slack" ∧
    (parse_bug_report [⟨"alice", "hi"⟩] none loadsEmptyObj).description =
      some (pyTake (formatConv [⟨"alice", "hi"⟩]) 500) ∧
    (parse_bug_report [⟨"alice", "hi"⟩] none loadsEmptyObj).severity = some "Medium" ∧
    titleTruthy (parse_bug_report [⟨"alice", "hi"⟩] none loadsEmptyObj) = true :=
  parse_fallback_on_extraction_failure [⟨"alice", "hi"⟩] none loadsEmptyObj trivial

/-! ## C5: the orchestrator boundary -/

/-- The failure message is never empty: its fixed prefix has
30 characters. -/
theorem failMsg_ne_empty (e : String) : failMsgHead ++ e ≠ "" := by
  intro hc
  have hlen := congrArg String.length hc
  rw [String.length_append] at hlen
  have h30 : failMsgHead.length = 30 := rfl
  have h0 : String.length "" = 0 := rfl
  omega

/-- C5 counterexample: when ticket creation raises an exception whose
text is empty, the failure result's `error` string is empty — refuting
that the surfaced `error` string is always non-empty.  (Everything else
about the boundary holds; see the amended theorem.) -/
theorem run_empty_error_string :
    (processSlackConversation
      { parseReport := .ok { title := some "Login broken" }, similar := [],
        fixResult := .error "llm down", createTicket := .error "",
        createBranch := .ok "b", applyChanges := true, createPR := .ok "u" }
      "C" "T").res.success = false ∧
    (processSlackConversation
      { parseReport := .ok { title := some "Login broken" }, similar := [],
        fixResult := .error "llm down", createTicket := .error "",
        createBranch := .ok "b", applyChanges := true, createPR := .ok "u" }
      "C" "T").res.error = some "" := by decide

/-- C5 (amended): `process_slack_conversation` is total — every
collaborator outcome yields a returned result, never a propagated
fault — with `workflow_id = channel_id + "_" + thread_ts`; whenever the
result is a failure, the `failed` transition was recorded, `error`
carries the caught exception's text verbatim (so it is empty exactly
when that text is), and `message` prefixes it with the fixed non-empty
string; a success result carries no error. -/
theorem run_boundary (env : Env) (cid tts : String) :
    (processSlackConversation env cid tts).res.workflow_id = cid ++ "_" ++ tts ∧
    ((processSlackConversation env cid tts).res.success = false →
      ∃ e, (processSlackConversation env cid tts).res.error = some e ∧
        (processSlackConversation env cid tts).res.message = failMsgHead ++ e ∧
        (processSlackConversation env cid tts).res.message ≠ "" ∧
        "failed" ∈ (processSlackConversation env cid tts).steps) ∧
    ((processSlackConversation env cid tts).res.success = true →
      (processSlackConversation env cid tts).res.error = none) := by
  unfold processSlackConversation
  by_cases hc : (effectiveFix env).code_changes = []
  all_goals repeat' split
  all_goals simp_all [failTrace, okTrace, failMsg_ne_empty]

/-- C5 witness: a raised report-parsing call at a concrete environment
is surfaced through the boundary. -/
theorem run_boundary_witness :
    ∃ e, (processSlackConversation
      { parseReport := .error "boom", similar := [], fixResult := .error "x",
        createTicket := .ok "K", createBranch := .ok "b", applyChanges := false,
        createPR := .ok "u" } "C" "T").res.error = some e ∧
      (processSlackConversation
        { parseReport := .error "boom", similar := [], fixResult := .error "x",
          createTicket := .ok "K", createBranch := .ok "b", applyChanges := false,
          createPR := .ok "u" } "C" "T").res.message = failMsgHead ++ e ∧
      (processSlackConversation
        { parseReport := .error "boom", similar := [], fixResult := .error "x",
          createTicket := .ok "K", createBranch := .ok "b", applyChanges := false,
          createPR := .ok "u" } "C" "T").res.message ≠ "" ∧
      "failed" ∈ (processSlackConversation
        { parseReport := .error "boom", similar := [], fixResult := .error "x",
          createTicket := .ok "K", createBranch := .ok "b", applyChanges := false,
          createPR := .ok "u" } "C" "T").steps :=
  (run_boundary
    { parseReport := .error "boom", similar := [], fixResult := .error "x",
      createTicket := .ok "K", createBranch := .ok "b", applyChanges := false,
      createPR := .ok "u" } "C" "T").2.1 (by decide)

/-! ## C6: empty code changes end in an advisory comment, not failure -/

/-- C6: whenever parsing succeeded with a truthy title, ticket creation
succeeded, and the effective fix proposal has an empty `code_changes`
list, the orchestrator posts the advisory manual-investigation comment
on the ticket, returns `pr_url = none` with `success = true`, and never
records the `failed` transition. -/
theorem run_empty_changes_advisory (env : Env) (cid tts : String) (r : RawReport)
    (k : String)
    (hp : env.parseReport = Except.ok r) (ht : titleTruthy r = true)
    (hk : env.createTicket = Except.ok k)
    (hfix : (effectiveFix env).code_changes = []) :
    (processSlackConversation env cid tts).res.success = true ∧
    (processSlackConversation env cid tts).res.pr_url = none ∧
    (k, manualComment) ∈ (processSlackConversation env cid tts).comments ∧
    "failed" ∉ (processSlackConversation env cid tts).steps := by
  simp only [processSlackConversation, hp, hk, ht, hfix]
  simp [okTrace]

/-- C6 witness at a concrete environment. -/
theorem run_empty_changes_advisory_witness :
    (processSlackConversation
      { parseReport := .ok { title := some "T" }, similar := [], fixResult := .error "x",
        createTicket := .ok "CCS-9", createBranch := .ok "b", applyChanges := true,
        createPR := .ok "u" } "C" "T").res.success = true ∧
    (processSlackConversation
      { parseReport := .ok { title := some "T" }, similar := [], fixResult := .error "x",
        createTicket := .ok "CCS-9", createBranch := .ok "b", applyChanges := true,
        createPR := .ok "u" } "C" "T").res.pr_url = none ∧
    ("CCS-9", manualComment) ∈ (processSlackConversation
      { parseReport := .ok { title := some "T" }, similar := [], fixResult := .error "x",
        createTicket := .ok "CCS-9", createBranch := .ok "b", applyChanges := true,
        createPR := .ok "u" } "C" "T").comments ∧
    "failed" ∉ (processSlackConversation
      { parseReport := .ok { title := some "T" }, similar := [], fixResult := .error "x",
        createTicket := .ok "CCS-9", createBranch := .ok "b", applyChanges := true,
        createPR := .ok "u" } "C" "T").steps :=
  run_empty_changes_advisory
    { parseReport := .ok { title := some "T" }, similar := [], fixResult := .error "x",
      createTicket := .ok "CCS-9", createBranch := .ok "b", applyChanges := true,
      createPR := .ok "u" } "C" "T" { title := some "T" } "CCS-9"
    rfl (by decide) rfl (by decide)

/-! ## C9: single collision retry of branch creation -/

/-- C9: once the base branch is resolved, `create_fix_branch` returns
the derived name on success; on a 422 "already exists" conflict it
retries exactly once with the time-based suffix, returning the suffixed
name when the retry succeeds and propagating the retry's exception when
it fails; and any non-conflict exception propagates unchanged. -/
theorem create_fix_branch_retry (env : GHEnv) (issue_key bug_title sha : String)
    (hget : env.getBranchSha = Except.ok sha) :
    (env.createRef (branchName issue_key bug_title) = Except.ok () →
       create_fix_branch env issue_key bug_title =
         Except.ok (branchName issue_key bug_title)) ∧
    (∀ m, env.createRef (branchName issue_key bug_title) = Except.error (PyErr.gh 422 m) →
       create_fix_branch env issue_key bug_title =
         Except.map (fun _ => branchName issue_key bug_title ++ "-" ++ toString env.now)
           (env.createRef (branchName issue_key bug_title ++ "-" ++ toString env.now))) ∧
    (∀ s m, s ≠ 422 →
       env.createRef (branchName issue_key bug_title) = Except.error (PyErr.gh s m) →
       create_fix_branch env issue_key bug_title = Except.error (PyErr.gh s m)) ∧
    (∀ m, env.createRef (branchName issue_key bug_title) = Except.error (PyErr.other m) →
       create_fix_branch env issue_key bug_title = Except.error (PyErr.other m)) := by
  refine ⟨?_, ?_, ?_, ?_⟩
  · intro hc
    simp [create_fix_branch, hget, hc]
  · intro m hc
    simp only [create_fix_branch, hget, hc, if_pos rfl]
    cases h2 : env.createRef (branchName issue_key bug_title ++ "-" ++ toString env.now) with
    | ok u => simp [Except.map]
    | error e2 => simp [Except.map]
  · intro s m hs hc
    simp [create_fix_branch, hget, hc, hs]
  · intro m hc
    simp [create_fix_branch, hget, hc]

/-- C9 witness: a concrete collision retried once under the suffix. -/
theorem create_fix_branch_retry_witness :
    create_fix_branch
      { getBranchSha := .ok "sha",
        createRef := fun n => if n = "fix/ccs-1-login" then .error (.gh 422 "exists") else .ok (),
        now := 17 } "CCS-1" "Login" =
      Except.map (fun _ => branchName "CCS-1" "Login" ++ "-" ++ toString (17 : Int))
        (Except.ok ()) :=
  ((create_fix_branch_retry
    { getBranchSha := .ok "sha",
      createRef := fun n => if n = "fix/ccs-1-login" then .error (.gh 422 "exists") else .ok (),
      now := 17 } "CCS-1" "Login" "sha" rfl).2.1 "exists" (by decide)).trans
    (by decide)

/-! ## C3: hunk listing order -/

/-- C3 counterexample: two non-overlapping hunks on a 10-line document —
one of which replaces one line by two — produce different results
depending on whether they are listed in ascending or descending
`old_start` order, because applying the earlier-in-document hunk first
shifts the lines the later hunk's original-numbering offset points at. -/
theorem applyDiff_hunk_order_matters :
    applyDiffToContent "l0\nl1\nl2\nl3\nl4\nl5\nl6\nl7\nl8\nl9"
        "@@ -2,1 +2,2 @@\n-l1\n+x\n+y\n@@ -6,1 +6,1 @@\n-l5\n+z" =
      Except.ok "l0\nx\ny\nl2\nl3\nl4\nz\nl6\nl7\nl8\nl9" ∧
    applyDiffToContent "l0\nl1\nl2\nl3\nl4\nl5\nl6\nl7\nl8\nl9"
        "@@ -6,1 +6,1 @@\n-l5\n+z\n@@ -2,1 +2,2 @@\n-l1\n+x\n+y" =
      Except.ok "l0\nx\ny\nl2\nl3\nz\nl5\nl6\nl7\nl8\nl9" ∧
    applyDiffToContent "l0\nl1\nl2\nl3\nl4\nl5\nl6\nl7\nl8\nl9"
        "@@ -2,1 +2,2 @@\n-l1\n+x\n+y\n@@ -6,1 +6,1 @@\n-l5\n+z" ≠
      applyDiffToContent "l0\nl1\nl2\nl3\nl4\nl5\nl6\nl7\nl8\nl9"
        "@@ -6,1 +6,1 @@\n-l5\n+z\n@@ -2,1 +2,2 @@\n-l1\n+x\n+y" := by decide

/-- Clamping a natural slice index. -/
theorem pySliceIdx_natCast (n a : Nat) : pySliceIdx n ((a : Nat) : Int) = min a n := by
  unfold pySliceIdx
  split <;> omega

/-- Inserting via `pyInsert` at an in-range natural index splices the element in. -/
theorem pyInsert_nat (l : List α) (k : Nat) (x : α) (hk : k ≤ l.length) :
    pyInsert l ((k : Nat) : Int) x = l.take k ++ x :: l.drop k := by
  simp only [pyInsert, pySliceIdx_natCast, min_eq_left hk]

/-- The insertion loop at an in-range natural start index splices the
whole block in. -/
theorem insertAll_nat (xs : List String) : ∀ (l : List String) (k : Nat),
    k ≤ l.length → insertAll l ((k : Nat) : Int) xs = l.take k ++ xs ++ l.drop k := by
  induction xs with
  | nil =>
      intro l k hk
      simp [insertAll]
  | cons x xs ih =>
      intro l k hk
      rw [insertAll, pyInsert_nat l k x hk]
      have hcast : ((k : Nat) : Int) + 1 = (((k + 1 : Nat)) : Int) := by push_cast; ring
      have hlen : (l.take k ++ x :: l.drop k).length = l.length + 1 := by
        simp [List.length_take, List.length_drop]
        omega
      rw [hcast, ih (l.take k ++ x :: l.drop k) (k + 1) (by omega)]
      rw [List.take_append_eq_append_take, List.drop_append_eq_append_drop]
      have hlt : (l.take k).length = k := by
        simp [List.length_take]
        omega
      rw [hlt]
      have h1 : k + 1 - k = 1 := by omega
      rw [h1, List.take_take]
      have h2 : min (k + 1) k = k := by omega
      rw [h2]
      have hnil : List.drop (k + 1) (List.take k l) = [] :=
        List.drop_eq_nil_of_le (by rw [hlt]; omega)
      rw [hnil]
      simp

/-- The hunk application step at an in-range natural offset is plain
splice surgery: delete `hunkRemovals` lines at the offset, insert the
replacement block there. -/
theorem applyHunk_eq (l : List String) (h : PHunk) (a : Nat)
    (ha : h.old_start = ((a : Nat) : Int)) (hb : a + hunkRemovals h ≤ l.length) :
    applyHunk l h = l.take a ++ hunkInsertions h ++ l.drop (a + hunkRemovals h) := by
  simp only [applyHunk]
  by_cases hr : hunkRemovals h > 0
  · rw [if_pos hr, ha]
    have hmin : min (((a : Nat) : Int) + (hunkRemovals h : Int)) ((l.length : Int)) =
        (((a + hunkRemovals h : Nat)) : Int) := by push_cast; omega
    rw [hmin]
    simp only [pyDelSlice, pySliceIdx_natCast]
    rw [min_eq_left (by omega : a ≤ l.length), min_eq_left hb]
    rw [max_eq_right (by omega : a ≤ a + hunkRemovals h)]
    have hta : (l.take a).length = a := by
      simp [List.length_take]
      omega
    have hlen2 : (l.take a ++ l.drop (a + hunkRemovals h)).length =
        l.length - hunkRemovals h := by
      simp [List.length_take, List.length_drop]
      omega
    rw [insertAll_nat _ _ a (by rw [hlen2]; omega)]
    have e1 : (l.take a ++ l.drop (a + hunkRemovals h)).take a = l.take a := by
      have h1 : (l.take a ++ l.drop (a + hunkRemovals h)).take a = (l.take a).take a :=
        List.take_append_of_le_length (by rw [hta])
      rw [h1, List.take_take, min_self]
    have e2 : (l.take a ++ l.drop (a + hunkRemovals h)).drop a =
        l.drop (a + hunkRemovals h) := by
      have h1 : (l.take a ++ l.drop (a + hunkRemovals h)).drop a =
          (l.take a).drop a ++ l.drop (a + hunkRemovals h) :=
        List.drop_append_of_le_length (by rw [hta])
      have hnil : (l.take a).drop a = [] := List.drop_eq_nil_of_le (by rw [hta])
      rw [h1, hnil, List.nil_append]
    rw [e1, e2]
  · rw [if_neg hr, ha]
    have hr0 : hunkRemovals h = 0 := by omega
    rw [insertAll_nat _ _ a (by omega), hr0]
    simp

/-- C3 (amended): listing order of two non-overlapping hunks on a
10-line document is irrelevant provided each hunk is length-preserving
(its replacement block has exactly as many lines as it removes); a hunk
that changes the line count makes the two orders disagree, as the
counterexample shows. -/
theorem applyHunks_nonoverlap_comm (doc : List String) (h1 h2 : PHunk) (a b : Nat)
    (hdoc : doc.length = 10)
    (ha : h1.old_start = ((a : Nat) : Int)) (hb : h2.old_start = ((b : Nat) : Int))
    (hm1 : (hunkInsertions h1).length = hunkRemovals h1)
    (hm2 : (hunkInsertions h2).length = hunkRemovals h2)
    (hsep : a + hunkRemovals h1 ≤ b)
    (hend : b + hunkRemovals h2 ≤ 10) :
    applyHunks [h1, h2] doc = applyHunks [h2, h1] doc := by
  have e1 : applyHunks [h1, h2] doc = applyHunk (applyHunk doc h2) h1 := rfl
  have e2 : applyHunks [h2, h1] doc = applyHunk (applyHunk doc h1) h2 := rfl
  rw [e1, e2]
  rw [applyHunk_eq doc h2 b hb (by omega)]
  rw [applyHunk_eq doc h1 a ha (by omega)]
  have hlenB : (doc.take b ++ hunkInsertions h2 ++ doc.drop (b + hunkRemovals h2)).length
      = 10 := by
    simp [List.length_take, List.length_drop, hm2, hdoc]
    omega
  have hlenA : (doc.take a ++ hunkInsertions h1 ++ doc.drop (a + hunkRemovals h1)).length
      = 10 := by
    simp [List.length_take, List.length_drop, hm1, hdoc]
    omega
  rw [applyHunk_eq _ h1 a ha (by rw [hlenB]; omega)]
  rw [applyHunk_eq _ h2 b hb (by rw [hlenA]; omega)]
  have hta : (doc.take a).length = a := by
    simp [List.length_take, hdoc]
    omega
  have htb : (doc.take b).length = b := by
    simp [List.length_take, hdoc]
    omega
  have hti : (doc.take a ++ hunkInsertions h1).length = a + hunkRemovals h1 := by
    simp [List.length_take, hdoc, hm1]
    omega
  have hTa : (doc.take b ++ hunkInsertions h2 ++ doc.drop (b + hunkRemovals h2)).take a
      = doc.take a := by
    rw [List.append_assoc]
    have h1 : (doc.take b ++
          (hunkInsertions h2 ++ doc.drop (b + hunkRemovals h2))).take a
        = (doc.take b).take a :=
      List.take_append_of_le_length (by rw [htb]; omega)
    rw [h1, List.take_take, min_eq_left (by omega : a ≤ b)]
  have hDa : (doc.take b ++ hunkInsertions h2 ++
        doc.drop (b + hunkRemovals h2)).drop (a + hunkRemovals h1)
      = (doc.drop (a + hunkRemovals h1)).take (b - (a + hunkRemovals h1)) ++
        (hunkInsertions h2 ++ doc.drop (b + hunkRemovals h2)) := by
    rw [List.append_assoc]
    have h1 : (doc.take b ++
          (hunkInsertions h2 ++ doc.drop (b + hunkRemovals h2))).drop (a + hunkRemovals h1)
        = (doc.take b).drop (a + hunkRemovals h1) ++
          (hunkInsertions h2 ++ doc.drop (b + hunkRemovals h2)) :=
      List.drop_append_of_le_length (by rw [htb]; omega)
    rw [h1, List.drop_take]
  have hTb : (doc.take a ++ hunkInsertions h1 ++ doc.drop (a + hunkRemovals h1)).take b
      = doc.take a ++ hunkInsertions h1 ++
        (doc.drop (a + hunkRemovals h1)).take (b - (a + hunkRemovals h1)) := by
    rw [List.take_append_eq_append_take, hti]
    have h1 : (doc.take a ++ hunkInsertions h1).take b
        = doc.take a ++ hunkInsertions h1 :=
      List.take_of_length_le (by rw [hti]; omega)
    rw [h1]
  have hDb : (doc.take a ++ hunkInsertions h1 ++
        doc.drop (a + hunkRemovals h1)).drop (b + hunkRemovals h2)
      = doc.drop (b + hunkRemovals h2) := by
    rw [List.drop_append_eq_append_drop, hti]
    have h1 : (doc.take a ++ hunkInsertions h1).drop (b + hunkRemovals h2) = [] :=
      List.drop_eq_nil_of_le (by rw [hti]; omega)
    rw [h1, List.nil_append, List.drop_drop]
    congr 1
    omega
  rw [hTa, hDa, hTb, hDb]
  simp [List.append_assoc]

/-- C3 witness: two concrete length-preserving non-overlapping hunks on
a concrete 10-line document commute. -/
theorem applyHunks_nonoverlap_comm_witness :
    applyHunks [⟨1, 1, ["-l1", "+x1"]⟩, ⟨5, 5, ["-l5", "+z"]⟩]
        ["l0", "l1", "l2", "l3", "l4", "l5", "l6", "l7", "l8", "l9"] =
      applyHunks [⟨5, 5, ["-l5", "+z"]⟩, ⟨1, 1, ["-l1", "+x1"]⟩]
        ["l0", "l1", "l2", "l3", "l4", "l5", "l6", "l7", "l8", "l9"] :=
  applyHunks_nonoverlap_comm
    ["l0", "l1", "l2", "l3", "l4", "l5", "l6", "l7", "l8", "l9"]
    ⟨1, 1, ["-l1", "+x1"]⟩ ⟨5, 5, ["-l5", "+z"]⟩ 1 5
    (by decide) (by decide) (by decide) (by decide) (by decide) (by decide) (by decide)
